import Mathlib

/-!
Verification development for the `bindl` wrapper library: a shallow embedding
of the Redis handler (`src/bindl/redis_wrapper/redis_handler.py`), the
RabbitMQ publisher and consumer (`src/bindl/rabbitmq_wrapper/`), and the
Prometheus metrics exporter (`src/bindl/prometheus_wrapper/metrics_exporter.py`),
together with theorems about their behaviour.
-/

namespace Bindl

/-- Python exception values raised by the wrapper layer or by the underlying
client libraries (`RuntimeError`, `ValueError`, pika's `UnroutableError` and
`NackError`, redis response errors such as WRONGTYPE, and transport-level
connection errors). -/
inductive PyErr where
  | runtimeError (msg : String)
  | valueError (msg : String)
  | unroutableError (msg : String)
  | nackError (msg : String)
  | channelError (msg : String)
  | responseError (msg : String)
  | connectionError (msg : String)
deriving DecidableEq

/-- Whether an `Except` result is a success. -/
def isOkE {α : Type} : Except PyErr α → Bool
  | .ok _ => true
  | .error _ => false

/-- Association-list lookup on string keys (the shape of Python dict access
used throughout the wrappers). -/
def alookup {α : Type} (k : String) : List (String × α) → Option α
  | [] => none
  | (k', v) :: rest => if k' = k then some v else alookup k rest

/-- Remove every binding of a key from an association list. -/
def aerase {α : Type} (k : String) : List (String × α) → List (String × α)
  | [] => []
  | (k', v) :: rest => if k' = k then aerase k rest else (k', v) :: aerase k rest

theorem alookup_aerase_self {α : Type} (k : String) (l : List (String × α)) :
    alookup k (aerase k l) = none := by
  induction l with
  | nil => rfl
  | cons hd tl ih =>
    obtain ⟨k', v⟩ := hd
    by_cases h : k' = k
    · simp [aerase, h, ih]
    · simp [aerase, alookup, h, ih]

theorem alookup_aerase_ne {α : Type} (k k' : String) (l : List (String × α))
    (h : k' ≠ k) : alookup k' (aerase k l) = alookup k' l := by
  induction l with
  | nil => rfl
  | cons hd tl ih =>
    obtain ⟨k'', v⟩ := hd
    by_cases h2 : k'' = k
    · subst h2
      have h4 : ¬(k'' = k') := fun hh => h (hh ▸ rfl)
      simp [aerase, alookup, h4, ih]
    · by_cases h3 : k'' = k'
      · simp [aerase, alookup, h2, h3, h]
      · simp [aerase, alookup, h2, h3, ih]

/-! ### Redis model

The Redis server keyspace as seen through the operations the wrapper uses
(`set`, `get`, `delete`, `hset`, `hget`, `expire`).  Byte sequences are
represented by their UTF-8 decoding: every value written through this wrapper
is the UTF-8 encoding of a text string, so Python's `bytes.decode("utf-8")`
is the identity on this representation.  TTLs are recorded as metadata;
time-based eviction is outside the scope of the claims modelled here (they
concern either keys with no TTL or whether a TTL is applied at all). -/

/-- A value stored under a Redis key: a plain byte-string entry or a hash. -/
inductive RVal where
  | str (b : String)
  | hash (fields : List (String × String))
deriving DecidableEq

/-- The Redis keyspace: each key maps to a stored value and an optional TTL
in seconds. -/
structure RedisState where
  entries : List (String × (RVal × Option Int))
deriving DecidableEq

def lookupEntry (st : RedisState) (k : String) : Option (RVal × Option Int) :=
  alookup k st.entries

def setEntry (st : RedisState) (k : String) (v : RVal) (t : Option Int) : RedisState :=
  ⟨(k, (v, t)) :: aerase k st.entries⟩

/-- Server semantics of `SET key value [EX seconds]`: overwrites any existing
value (of any type) and installs the given expiry (none clears any TTL). -/
def redisSet (st : RedisState) (k b : String) (ex : Option Int) : RedisState :=
  setEntry st k (.str b) ex

/-- Server semantics of `GET key`: absent keys yield no value; hash-typed
keys raise a WRONGTYPE response error. -/
def redisGet (st : RedisState) (k : String) : Except PyErr (Option String) :=
  match lookupEntry st k with
  | none => .ok none
  | some (.str b, _) => .ok (some b)
  | some (.hash _, _) => .error (.responseError "WRONGTYPE Operation against a key holding the wrong kind of value")

/-- Server semantics of `DEL key`. -/
def redisDel (st : RedisState) (k : String) : RedisState :=
  ⟨aerase k st.entries⟩

/-- Server semantics of `HSET name field value`: creates the hash when the
name is unbound (with no TTL), updates the field otherwise (keeping the TTL);
string-typed keys raise WRONGTYPE. -/
def redisHset (st : RedisState) (n f v : String) : Except PyErr RedisState :=
  match lookupEntry st n with
  | none => .ok (setEntry st n (.hash [(f, v)]) none)
  | some (.hash fs, t) => .ok (setEntry st n (.hash ((f, v) :: aerase f fs)) t)
  | some (.str _, _) => .error (.responseError "WRONGTYPE Operation against a key holding the wrong kind of value")

/-- Server semantics of `HGET name field`: absent hash or absent field yield
no value; string-typed keys raise WRONGTYPE. -/
def redisHget (st : RedisState) (n f : String) : Except PyErr (Option String) :=
  match lookupEntry st n with
  | none => .ok none
  | some (.hash fs, _) => .ok (alookup f fs)
  | some (.str _, _) => .error (.responseError "WRONGTYPE Operation against a key holding the wrong kind of value")

/-- Server semantics of `EXPIRE name seconds`: sets the TTL when the key
exists, otherwise does nothing. -/
def redisExpire (st : RedisState) (n : String) (e : Int) : RedisState :=
  match lookupEntry st n with
  | none => st
  | some (v, _) => setEntry st n v (some e)

/-! ### RedisHandler (`redis_handler.py`)

Each wrapper method issues its client calls inside a `try` block and
re-raises any exception as `RuntimeError`.  The transport is modelled by a
`ConnMode`: a healthy connection executes the server semantics above and a
downed connection raises a connection error on every call, which the wrapper
converts to `RuntimeError`. -/

/-- Values a caller may pass for the `Any`-typed `value` parameter of
`set_value`: the text and integer cases used by this repository. -/
inductive PyVal where
  | str (s : String)
  | int (n : Int)
deriving DecidableEq

/-- How redis-py encodes a value onto the wire: text is sent as its UTF-8
bytes (the identity in our byte representation), integers as the decimal
text of the number. -/
def encodeVal : PyVal → String
  | .str s => s
  | .int n => toString n

/-- Transport health of the underlying Redis connection. -/
inductive ConnMode where
  | healthy
  | down
deriving DecidableEq

/-- Run one client call: a healthy connection performs the call, a downed
connection raises a transport error. -/
def connRun {α : Type} (m : ConnMode) (act : Except PyErr α) : Except PyErr α :=
  match m with
  | .healthy => act
  | .down => .error (.connectionError "Connection refused")

/-- `RedisHandler.set_value(key, value, expiration=None)`: calls
`redis.set(key, value, ex=expiration)`; any exception is re-raised as
`RuntimeError`. -/
def set_value (m : ConnMode) (st : RedisState) (key : String) (value : PyVal)
    (expiration : Option Int) : Except PyErr RedisState :=
  match connRun m (.ok (redisSet st key (encodeVal value) expiration)) with
  | .ok st' => .ok st'
  | .error _ => .error (.runtimeError ("Failed to set key '" ++ key ++ "'"))

/-- `RedisHandler.get_value(key)`: calls `redis.get(key)` and returns
`value.decode("utf-8") if isinstance(value, bytes) else None` — a present
(bytes) reply is decoded, an absent reply maps to `None`; any exception is
re-raised as `RuntimeError`. -/
def get_value (m : ConnMode) (st : RedisState) (key : String) :
    Except PyErr (Option String) :=
  match connRun m (redisGet st key) with
  | .ok (some b) => .ok (some b)
  | .ok none => .ok none
  | .error _ => .error (.runtimeError ("Failed to retrieve value for key '" ++ key ++ "'"))

/-- `RedisHandler.delete_key(key)`: calls `redis.delete(key)`; any exception
is re-raised as `RuntimeError`. -/
def delete_key (m : ConnMode) (st : RedisState) (key : String) :
    Except PyErr RedisState :=
  match connRun m (.ok (redisDel st key)) with
  | .ok st' => .ok st'
  | .error _ => .error (.runtimeError ("Failed to delete key '" ++ key ++ "'"))

/-- `RedisHandler.set_hash(name, key, value, expiration=None)`: calls
`redis.hset(name, key, value)` and then, only when `expiration` is truthy
(`if expiration:` — i.e. not `None` and not `0`), `redis.expire(name,
expiration)`; any exception is re-raised as `RuntimeError`. -/
def set_hash (m : ConnMode) (st : RedisState) (name key value : String)
    (expiration : Option Int) : Except PyErr RedisState :=
  match connRun m (redisHset st name key value) with
  | .error _ => .error (.runtimeError ("Failed to set hash '" ++ name ++ "' with key '" ++ key ++ "'"))
  | .ok st' =>
    match expiration with
    | none => .ok st'
    | some e =>
      if e ≠ 0 then
        match connRun m (.ok (redisExpire st' name e)) with
        | .ok st'' => .ok st''
        | .error _ => .error (.runtimeError ("Failed to set hash '" ++ name ++ "' with key '" ++ key ++ "'"))
      else .ok st'

/-- `RedisHandler.get_hash(name, key)`: calls `redis.hget(name, key)` and
returns `value.decode("utf-8") if isinstance(value, bytes) else None`; any
exception is re-raised as `RuntimeError`. -/
def get_hash (m : ConnMode) (st : RedisState) (name key : String) :
    Except PyErr (Option String) :=
  match connRun m (redisHget st name key) with
  | .ok (some b) => .ok (some b)
  | .ok none => .ok none
  | .error _ => .error (.runtimeError ("Failed to retrieve hash '" ++ name ++ "' with key '" ++ key ++ "'"))

/-! ### Operation traces over the Redis handler -/

/-- A call made through `RedisHandler` (the state-mutating operations). -/
inductive ROp where
  | setV (k : String) (v : PyVal) (ex : Option Int)
  | delK (k : String)
  | hsetF (n f v : String) (ex : Option Int)
deriving DecidableEq

/-- Apply one handler call over a healthy connection (a raised exception
leaves the server state unchanged). -/
def applyOp (st : RedisState) : ROp → RedisState
  | .setV k v ex =>
    match set_value .healthy st k v ex with
    | .ok s => s
    | .error _ => st
  | .delK k =>
    match delete_key .healthy st k with
    | .ok s => s
    | .error _ => st
  | .hsetF n f v ex =>
    match set_hash .healthy st n f v ex with
    | .ok s => s
    | .error _ => st

def runOps (st : RedisState) : List ROp → RedisState
  | [] => st
  | op :: rest => runOps (applyOp st op) rest

/-- The primary key an operation addresses. -/
def opKey : ROp → String
  | .setV k _ _ => k
  | .delK k => k
  | .hsetF n _ _ _ => n

theorem lookupEntry_setEntry_self (st : RedisState) (k : String) (v : RVal)
    (t : Option Int) : lookupEntry (setEntry st k v t) k = some (v, t) := by
  simp [setEntry, lookupEntry, alookup]

theorem lookupEntry_setEntry_ne (st : RedisState) (k k' : String) (v : RVal)
    (t : Option Int) (h : k' ≠ k) :
    lookupEntry (setEntry st k' v t) k = lookupEntry st k := by
  have h2 : ¬(k' = k) := h
  simp [setEntry, lookupEntry, alookup, h2]
  exact alookup_aerase_ne k' k st.entries (Ne.symm h)

theorem lookupEntry_redisExpire_ne (st : RedisState) (n k : String) (e : Int)
    (h : n ≠ k) : lookupEntry (redisExpire st n e) k = lookupEntry st k := by
  cases hh : lookupEntry st n with
  | none => simp [redisExpire, hh]
  | some vt =>
    obtain ⟨v0, t0⟩ := vt
    simp [redisExpire, hh, lookupEntry_setEntry_ne st k n v0 (some e) h]

theorem lookupEntry_redisHset_ne (st st' : RedisState) (n f v k : String)
    (h : n ≠ k) (hh : redisHset st n f v = .ok st') :
    lookupEntry st' k = lookupEntry st k := by
  unfold redisHset at hh
  cases hh2 : lookupEntry st n with
  | none =>
    rw [hh2] at hh
    injection hh with hh
    subst hh
    exact lookupEntry_setEntry_ne st k n _ _ h
  | some vt =>
    obtain ⟨v0, t0⟩ := vt
    cases v0 with
    | str b => rw [hh2] at hh; exact absurd hh (by simp)
    | hash fs =>
      rw [hh2] at hh
      injection hh with hh
      subst hh
      exact lookupEntry_setEntry_ne st k n _ _ h

theorem lookupEntry_applyOp_ne (st : RedisState) (op : ROp) (k : String)
    (h : opKey op ≠ k) : lookupEntry (applyOp st op) k = lookupEntry st k := by
  cases op with
  | setV k' v ex =>
    have h' : k' ≠ k := h
    show lookupEntry (setEntry st k' (.str (encodeVal v)) ex) k = lookupEntry st k
    exact lookupEntry_setEntry_ne st k k' _ _ h'
  | delK k' =>
    have h' : k' ≠ k := h
    show lookupEntry (redisDel st k') k = lookupEntry st k
    exact alookup_aerase_ne k' k st.entries (Ne.symm h')
  | hsetF n f v ex =>
    have h' : n ≠ k := h
    cases hh : redisHset st n f v with
    | error e0 => simp [applyOp, set_hash, connRun, hh]
    | ok st1 =>
      have hbase := lookupEntry_redisHset_ne st st1 n f v k h' hh
      cases ex with
      | none => simpa [applyOp, set_hash, connRun, hh] using hbase
      | some e =>
        by_cases he : e = 0
        · simpa [applyOp, set_hash, connRun, hh, he] using hbase
        · simp [applyOp, set_hash, connRun, hh, he,
            lookupEntry_redisExpire_ne st1 n k e h']
          exact hbase

theorem runOps_preserves (ops : List ROp) (st : RedisState) (k : String)
    (h : ∀ op ∈ ops, opKey op ≠ k) :
    lookupEntry (runOps st ops) k = lookupEntry st k := by
  induction ops generalizing st with
  | nil => rfl
  | cons op rest ih =>
    have h1 : opKey op ≠ k := h op (by simp)
    have h2 : ∀ op' ∈ rest, opKey op' ≠ k := fun op' hm => h op' (by simp [hm])
    calc lookupEntry (runOps (applyOp st op) rest) k
        = lookupEntry (applyOp st op) k := ih (applyOp st op) h2
      _ = lookupEntry st k := lookupEntry_applyOp_ne st op k h1

/-- Claim C5: a key set with a (byte-string) value and no TTL keeps returning
exactly that value through `get_value` across any further handler operations
that do not address that key (no overwrite, no delete). -/
theorem C5_set_persists_until_delete (st : RedisState) (k v : String)
    (ops : List ROp) (h : ∀ op ∈ ops, opKey op ≠ k) :
    get_value .healthy (runOps (applyOp st (.setV k (.str v) none)) ops) k
      = .ok (some v) := by
  have h1 : lookupEntry (applyOp st (.setV k (.str v) none)) k
      = some (.str v, none) := by
    show lookupEntry (setEntry st k (.str v) none) k = some (.str v, none)
    exact lookupEntry_setEntry_self st k _ _
  have h2 := (runOps_preserves ops _ k h).trans h1
  simp [get_value, connRun, redisGet, h2]

theorem C5_set_persists_until_delete_witness :
    get_value .healthy
      (runOps (applyOp ⟨[]⟩ (.setV "k" (.str "bar") none))
        [.setV "j" (.str "x") none, .delK "z", .hsetF "hh" "f" "y" (some 9)])
      "k" = .ok (some "bar") :=
  C5_set_persists_until_delete ⟨[]⟩ "k" "bar" _ (by decide)

/-- Claim C6: absent keys and hash fields yield the explicit absent marker
(`none`), which is distinct from the empty string value; a `RuntimeError` is
raised only when the transport is down or the underlying client reports a
protocol error (WRONGTYPE), never on mere absence. -/
theorem C6_absent_vs_error (st : RedisState) (k n f : String)
    (hk : lookupEntry st k = none) (hn : lookupEntry st n = none) :
    get_value .healthy st k = .ok none ∧
    get_hash .healthy st n f = .ok none ∧
    (Except.ok none : Except PyErr (Option String)) ≠ .ok (some "") ∧
    (∀ m st' k', isOkE (get_value m st' k') = false →
      m = .down ∨ ∃ fs t, lookupEntry st' k' = some (.hash fs, t)) ∧
    (∀ m st' n' f', isOkE (get_hash m st' n' f') = false →
      m = .down ∨ ∃ b t, lookupEntry st' n' = some (.str b, t)) := by
  refine ⟨by simp [get_value, connRun, redisGet, hk],
          by simp [get_hash, connRun, redisHget, hn], by simp, ?_, ?_⟩
  · intro m st' k' hm
    cases m with
    | down => exact Or.inl rfl
    | healthy =>
      cases hh : lookupEntry st' k' with
      | none => simp [get_value, connRun, redisGet, hh, isOkE] at hm
      | some vt =>
        obtain ⟨v0, t0⟩ := vt
        cases v0 with
        | str b => simp [get_value, connRun, redisGet, hh, isOkE] at hm
        | hash fs => exact Or.inr ⟨fs, t0, rfl⟩
  · intro m st' n' f' hm
    cases m with
    | down => exact Or.inl rfl
    | healthy =>
      cases hh : lookupEntry st' n' with
      | none => simp [get_hash, connRun, redisHget, hh, isOkE] at hm
      | some vt =>
        obtain ⟨v0, t0⟩ := vt
        cases v0 with
        | hash fs =>
          cases halk : alookup f' fs with
          | none => simp [get_hash, connRun, redisHget, hh, halk, isOkE] at hm
          | some b => simp [get_hash, connRun, redisHget, hh, halk, isOkE] at hm
        | str b => exact Or.inr ⟨b, t0, rfl⟩

theorem C6_absent_vs_error_witness :
    get_value .healthy ⟨[]⟩ "missing" = .ok none ∧
    get_hash .healthy ⟨[]⟩ "nohash" "f" = .ok none :=
  ⟨(C6_absent_vs_error ⟨[]⟩ "missing" "nohash" "f" rfl rfl).1,
   (C6_absent_vs_error ⟨[]⟩ "missing" "nohash" "f" rfl rfl).2.1⟩

/-- Claim C7 counterexample: storing the Python integer `42` through
`set_value` and reading the key back yields the string `"42"`, not the stored
value itself — the facade implicitly coerced the integer to its decimal text
on write and decoded it to a string on read, so "a read returns the stored
value itself" fails for non-string values. -/
theorem C7_int_coercion_cex :
    set_value .healthy ⟨[]⟩ "k" (.int 42) none
      = .ok ⟨[("k", (.str "42", none))]⟩ ∧
    get_value .healthy ⟨[("k", (.str "42", none))]⟩ "k" = .ok (some "42") ∧
    PyVal.int 42 ≠ PyVal.str "42" := by
  refine ⟨rfl, rfl, by decide⟩

/-- Claim C7 (amended): a read after a write returns exactly the byte content
that was stored — the encoding of the written value (the identity on
byte-string values, the decimal text for integer values) — and a present
value is never replaced by the absent marker. -/
theorem C7_read_returns_stored_bytes (st : RedisState) (k : String)
    (v : PyVal) (ex : Option Int) (st' : RedisState)
    (h : set_value .healthy st k v ex = .ok st') :
    get_value .healthy st' k = .ok (some (encodeVal v)) := by
  have h2 : redisSet st k (encodeVal v) ex = st' := by
    simpa [set_value, connRun] using h
  subst h2
  have h3 : lookupEntry (redisSet st k (encodeVal v) ex) k
      = some (.str (encodeVal v), ex) := lookupEntry_setEntry_self st k _ _
  simp [get_value, connRun, redisGet, h3]

theorem C7_read_returns_stored_bytes_witness :
    get_value .healthy ⟨[("k", (.str "7", none))]⟩ "k" = .ok (some "7") :=
  C7_read_returns_stored_bytes ⟨[]⟩ "k" (.int 7) none
    ⟨[("k", (.str "7", none))]⟩ rfl

/-- Claim C10: `set_hash` applies an expiry only when the given expiration is
truthy — with `expiration = 0` the call behaves identically to
`expiration = None`: the field value is written but no expiry is installed
(on a fresh hash the TTL stays `none`). -/
theorem C10_set_hash_zero_expiration (st : RedisState) (n f v : String)
    (h : lookupEntry st n = none) :
    (∀ st2 : RedisState,
      set_hash .healthy st2 n f v (some 0) = set_hash .healthy st2 n f v none) ∧
    set_hash .healthy st n f v (some 0)
      = .ok (setEntry st n (.hash [(f, v)]) none) ∧
    get_hash .healthy (setEntry st n (.hash [(f, v)]) none) n f
      = .ok (some v) ∧
    lookupEntry (setEntry st n (.hash [(f, v)]) none) n
      = some (.hash [(f, v)], none) := by
  refine ⟨?_, ?_, ?_, lookupEntry_setEntry_self st n _ _⟩
  · intro st2
    cases hh : redisHset st2 n f v with
    | error e0 => simp [set_hash, connRun, hh]
    | ok st1 => simp [set_hash, connRun, hh]
  · simp [set_hash, connRun, redisHset, h]
  · simp [get_hash, connRun, redisHget, lookupEntry_setEntry_self, alookup]

theorem C10_set_hash_zero_expiration_witness :
    set_hash .healthy ⟨[]⟩ "h" "f" "x" (some 0)
      = .ok (setEntry ⟨[]⟩ "h" (.hash [("f", "x")]) none) ∧
    get_hash .healthy (setEntry ⟨[]⟩ "h" (.hash [("f", "x")]) none) "h" "f"
      = .ok (some "x") :=
  ⟨(C10_set_hash_zero_expiration ⟨[]⟩ "h" "f" "x" rfl).2.1,
   (C10_set_hash_zero_expiration ⟨[]⟩ "h" "f" "x" rfl).2.2.1⟩

/-! ### MetricsExporter (`metrics_exporter.py`)

The exporter keeps one Python dict per metric kind (`counters`, `gauges`,
`histograms`, `summaries`).  Instrument construction goes through
prometheus_client, whose default `CollectorRegistry` raises
`ValueError("Duplicated timeseries in CollectorRegistry: ...")` when a metric
name is already registered — the wrapper performs no duplicate or schema
check of its own and does not catch this error.  Metric values are modelled
with exact integer arithmetic (the claims below do not depend on float
rounding). -/

/-- A registered instrument: its metadata and the list of updates applied to
it (label set used, value), newest first. -/
structure Instrument where
  name : String
  description : String
  labelNames : List String
  buckets : Option (List Int)
  events : List (Option (List (String × String)) × Int)
deriving DecidableEq

/-- State of a `MetricsExporter` plus the prometheus_client default
collector registry (the set of metric names already registered
process-wide) and the warnings logged so far (newest first). -/
structure ExporterState where
  registryNames : List String
  counters : List (String × Instrument)
  gauges : List (String × Instrument)
  histograms : List (String × Instrument)
  summaries : List (String × Instrument)
  warnings : List String
deriving DecidableEq

def emptyExporter : ExporterState := ⟨[], [], [], [], [], []⟩

/-- Model of prometheus_client collector registration: constructing an
instrument registers its name in the default `CollectorRegistry` and raises
`ValueError` if the name is already present. -/
def prometheusRegister (reg : List String) (name : String) :
    Except PyErr (List String) :=
  if name ∈ reg then
    .error (.valueError ("Duplicated timeseries in CollectorRegistry: " ++ name))
  else .ok (name :: reg)

/-- `MetricsExporter.register_counter(name, description, label_names=None)`:
`label_names = label_names or []`, then `self.counters[name] = Counter(name,
description, label_names)`. -/
def register_counter (st : ExporterState) (name description : String)
    (label_names : Option (List String)) : Except PyErr ExporterState :=
  let ln := label_names.getD []
  match prometheusRegister st.registryNames name with
  | .error e => .error e
  | .ok reg' =>
    .ok { st with registryNames := reg',
                  counters := (name, ⟨name, description, ln, none, []⟩)
                    :: aerase name st.counters }

/-- `MetricsExporter.register_gauge(name, description, label_names=None)`. -/
def register_gauge (st : ExporterState) (name description : String)
    (label_names : Option (List String)) : Except PyErr ExporterState :=
  let ln := label_names.getD []
  match prometheusRegister st.registryNames name with
  | .error e => .error e
  | .ok reg' =>
    .ok { st with registryNames := reg',
                  gauges := (name, ⟨name, description, ln, none, []⟩)
                    :: aerase name st.gauges }

/-- `MetricsExporter.register_histogram(name, description, label_names=None,
buckets=None)`: buckets are forwarded when given, otherwise the client's
defaults apply (recorded as `none`). -/
def register_histogram (st : ExporterState) (name description : String)
    (label_names : Option (List String)) (buckets : Option (List Int)) :
    Except PyErr ExporterState :=
  let ln := label_names.getD []
  match prometheusRegister st.registryNames name with
  | .error e => .error e
  | .ok reg' =>
    .ok { st with registryNames := reg',
                  histograms := (name, ⟨name, description, ln, buckets, []⟩)
                    :: aerase name st.histograms }

/-- `MetricsExporter.register_summary(name, description, label_names=None)`. -/
def register_summary (st : ExporterState) (name description : String)
    (label_names : Option (List String)) : Except PyErr ExporterState :=
  let ln := label_names.getD []
  match prometheusRegister st.registryNames name with
  | .error e => .error e
  | .ok reg' =>
    .ok { st with registryNames := reg',
                  summaries := (name, ⟨name, description, ln, none, []⟩)
                    :: aerase name st.summaries }

/-- Whether two label-name lists contain the same names
(order-independent). -/
def sameKeySet (a b : List String) : Bool :=
  a.all (fun x => b.contains x) && b.all (fun x => a.contains x)

/-- Model of applying one update to a prometheus_client instrument:
`metric.labels(**labels)` raises `ValueError` when the supplied label names
do not match the instrument's label schema, and a bare update on a labelled
instrument raises `ValueError` for missing label values; otherwise the
observation is recorded. -/
def metricUpdate (inst : Instrument)
    (labels : Option (List (String × String))) (value : Int) :
    Except PyErr Instrument :=
  match labels with
  | some ls =>
    if ls != [] then
      if sameKeySet (ls.map (fun kv => kv.1)) inst.labelNames then
        .ok { inst with events := (some ls, value) :: inst.events }
      else .error (.valueError ("Incorrect label names for metric " ++ inst.name))
    else
      if inst.labelNames = [] then
        .ok { inst with events := (none, value) :: inst.events }
      else .error (.valueError ("Metric " ++ inst.name ++ " is missing label values"))
  | none =>
    if inst.labelNames = [] then
      .ok { inst with events := (none, value) :: inst.events }
    else .error (.valueError ("Metric " ++ inst.name ++ " is missing label values"))

/-- `MetricsExporter.inc_counter(name, labels=None, value=1)`: looks the name
up in `self.counters`; when absent it logs a warning and returns, otherwise
it applies the increment. -/
def inc_counter (st : ExporterState) (name : String)
    (labels : Option (List (String × String))) (value : Int) :
    Except PyErr ExporterState :=
  match alookup name st.counters with
  | none =>
    .ok { st with warnings :=
      ("Counter '" ++ name ++ "' is not registered.") :: st.warnings }
  | some inst =>
    match metricUpdate inst labels value with
    | .ok inst' => .ok { st with counters := (name, inst') :: aerase name st.counters }
    | .error e => .error e

/-- `MetricsExporter.set_gauge(name, value, labels=None)`: looks the name up
in `self.gauges`; when absent it logs a warning and returns, otherwise it
sets the value. -/
def set_gauge (st : ExporterState) (name : String) (value : Int)
    (labels : Option (List (String × String))) : Except PyErr ExporterState :=
  match alookup name st.gauges with
  | none =>
    .ok { st with warnings :=
      ("Gauge '" ++ name ++ "' is not registered.") :: st.warnings }
  | some inst =>
    match metricUpdate inst labels value with
    | .ok inst' => .ok { st with gauges := (name, inst') :: aerase name st.gauges }
    | .error e => .error e

/-- `MetricsExporter.observe_histogram(name, value, labels=None)`: looks the
name up in `self.histograms`; when absent it logs a warning and returns,
otherwise it records the observation. -/
def observe_histogram (st : ExporterState) (name : String) (value : Int)
    (labels : Option (List (String × String))) : Except PyErr ExporterState :=
  match alookup name st.histograms with
  | none =>
    .ok { st with warnings :=
      ("Histogram '" ++ name ++ "' is not registered.") :: st.warnings }
  | some inst =>
    match metricUpdate inst labels value with
    | .ok inst' => .ok { st with histograms := (name, inst') :: aerase name st.histograms }
    | .error e => .error e

/-- `MetricsExporter.observe_summary(name, value, labels=None)`. -/
def observe_summary (st : ExporterState) (name : String) (value : Int)
    (labels : Option (List (String × String))) : Except PyErr ExporterState :=
  match alookup name st.summaries with
  | none =>
    .ok { st with warnings :=
      ("Summary '" ++ name ++ "' is not registered.") :: st.warnings }
  | some inst =>
    match metricUpdate inst labels value with
    | .ok inst' => .ok { st with summaries := (name, inst') :: aerase name st.summaries }
    | .error e => .error e

/-- Claim C3 counterexample: registering the same counter name a second time
with an identical label schema is not idempotent and does not return the
existing instrument — it fails with the underlying client's `ValueError`
(duplicated timeseries), and no `DuplicateInstrumentError` exists in the
code. -/
theorem C3_identical_schema_not_idempotent_cex :
    register_counter emptyExporter "jobs" "d" (some ["k"])
      = .ok ⟨["jobs"], [("jobs", ⟨"jobs", "d", ["k"], none, []⟩)],
             [], [], [], []⟩ ∧
    register_counter
      ⟨["jobs"], [("jobs", ⟨"jobs", "d", ["k"], none, []⟩)], [], [], [], []⟩
      "jobs" "d" (some ["k"])
      = .error (.valueError "Duplicated timeseries in CollectorRegistry: jobs") :=
  ⟨rfl, rfl⟩

/-- Claim C3 (amended): registering an instrument name that is already
registered always fails, with the underlying prometheus client's
`ValueError` (duplicated timeseries), regardless of whether the label schema
is identical or different — the wrapper performs no schema comparison, is
never idempotent on re-registration, and defines no
`DuplicateInstrumentError`. -/
theorem C3_duplicate_name_always_valueError (st : ExporterState)
    (name description : String) (ln : Option (List String))
    (h : name ∈ st.registryNames) :
    register_counter st name description ln
      = .error (.valueError
          ("Duplicated timeseries in CollectorRegistry: " ++ name)) ∧
    register_gauge st name description ln
      = .error (.valueError
          ("Duplicated timeseries in CollectorRegistry: " ++ name)) := by
  constructor <;> simp [register_counter, register_gauge, prometheusRegister, h]

theorem C3_duplicate_name_always_valueError_witness :
    register_counter ⟨["m"], [], [], [], [], []⟩ "m" "d" (some ["x"])
      = .error (.valueError "Duplicated timeseries in CollectorRegistry: m") :=
  (C3_duplicate_name_always_valueError ⟨["m"], [], [], [], [], []⟩ "m" "d"
    (some ["x"]) (by decide)).1

/-- Claim C9: a metric-update call (`inc_counter`, `set_gauge`,
`observe_histogram`, `observe_summary`) whose name is not registered logs a
warning and returns successfully, leaving every instrument map untouched —
it never raises an error to the caller. -/
theorem C9_unregistered_update_is_silent (st : ExporterState) (name : String)
    (labels : Option (List (String × String))) (v : Int)
    (h1 : alookup name st.counters = none)
    (h2 : alookup name st.gauges = none)
    (h3 : alookup name st.histograms = none)
    (h4 : alookup name st.summaries = none) :
    inc_counter st name labels v
      = .ok { st with warnings :=
          ("Counter '" ++ name ++ "' is not registered.") :: st.warnings } ∧
    set_gauge st name v labels
      = .ok { st with warnings :=
          ("Gauge '" ++ name ++ "' is not registered.") :: st.warnings } ∧
    observe_histogram st name v labels
      = .ok { st with warnings :=
          ("Histogram '" ++ name ++ "' is not registered.") :: st.warnings } ∧
    observe_summary st name v labels
      = .ok { st with warnings :=
          ("Summary '" ++ name ++ "' is not registered.") :: st.warnings } := by
  refine ⟨?_, ?_, ?_, ?_⟩ <;>
    simp [inc_counter, set_gauge, observe_histogram, observe_summary,
      h1, h2, h3, h4]

theorem C9_unregistered_update_is_silent_witness :
    inc_counter emptyExporter "nope" none 1
      = .ok { emptyExporter with
          warnings := ["Counter 'nope' is not registered."] } :=
  (C9_unregistered_update_is_silent emptyExporter "nope" none 1
    rfl rfl rfl rfl).1

/-! ### RabbitMQBase (`rabbitmq_wrapper/common.py`)

`RabbitMQBase.__init__` first checks `os.getenv("RABBITMQ_USER")` and
`os.getenv("RABBITMQ_PASS")` and raises `RuntimeError` if either is `None`,
then fills the connection fields from the keyword arguments with Python
`or`-defaulting (an empty string counts as absent). -/

/-- The keyword arguments accepted by the base class. -/
structure BrokerKwargs where
  host : Option String
  port : Option Int
  username : Option String
  password : Option String
deriving DecidableEq

/-- The connection fields stored on the instance. -/
structure BrokerConfig where
  host : String
  port : Int
  username : Option String
  password : Option String
deriving DecidableEq

/-- Python `a or b` on an optional string: `None` and `""` are falsy. -/
def pyOrStr (a b : Option String) : Option String :=
  match a with
  | some s => if s = "" then b else some s
  | none => b

/-- Python `a or b` where `b` is a non-optional default. -/
def pyOrStrD (a : Option String) (b : String) : String :=
  match a with
  | some s => if s = "" then b else s
  | none => b

/-- Python `a or b` on an optional integer: `None` and `0` are falsy. -/
def pyOrIntD (a : Option Int) (b : Int) : Int :=
  match a with
  | some n => if n = 0 then b else n
  | none => b

/-- `RabbitMQBase.__init__(**kwargs)` with the process environment `env`:
raises `RuntimeError` when `RABBITMQ_USER` or `RABBITMQ_PASS` is unset,
otherwise stores host/port/username/password with `or`-defaulting. -/
def rabbitMQBaseInit (env : String → Option String) (kw : BrokerKwargs) :
    Except PyErr BrokerConfig :=
  if (env "RABBITMQ_USER").isNone || (env "RABBITMQ_PASS").isNone then
    .error (.runtimeError
      "Environment variables RABBITMQ_USER and RABBITMQ_PASS must be set")
  else
    .ok { host := pyOrStrD kw.host "localhost",
          port := pyOrIntD kw.port 5672,
          username := pyOrStr kw.username (env "RABBITMQ_USER"),
          password := pyOrStr kw.password (env "RABBITMQ_PASS") }

/-- An environment that supplies credentials only under the names the spec
uses (`BROKER_USER`/`BROKER_PASS`). -/
def envBrokerOnly : String → Option String := fun s =>
  if s = "BROKER_USER" then some "user"
  else if s = "BROKER_PASS" then some "pass" else none

/-- An environment that supplies credentials only under the names the code
reads (`RABBITMQ_USER`/`RABBITMQ_PASS`). -/
def envRabbitOnly : String → Option String := fun s =>
  if s = "RABBITMQ_USER" then some "user"
  else if s = "RABBITMQ_PASS" then some "pass" else none

/-- Claim C4 counterexample: with `BROKER_USER` and `BROKER_PASS` both set
(and nothing else), constructing the broker client still fails — and with
only `RABBITMQ_USER`/`RABBITMQ_PASS` set it succeeds.  The credentials are
therefore supplied via `RABBITMQ_USER`/`RABBITMQ_PASS`, not via the
`BROKER_*` names the claim states. -/
theorem C4_env_var_names_cex :
    rabbitMQBaseInit envBrokerOnly ⟨none, none, none, none⟩
      = .error (.runtimeError
          "Environment variables RABBITMQ_USER and RABBITMQ_PASS must be set") ∧
    rabbitMQBaseInit envRabbitOnly ⟨none, none, none, none⟩
      = .ok ⟨"localhost", 5672, some "user", some "pass"⟩ :=
  ⟨rfl, rfl⟩

/-- Claim C4 (amended): broker credentials are supplied via the environment
variables `RABBITMQ_USER` and `RABBITMQ_PASS`, and constructing a broker
client fails fast with a `RuntimeError` configuration error exactly when
either variable is absent. -/
theorem C4_rabbitmq_env_fail_fast (env : String → Option String)
    (kw : BrokerKwargs) :
    ((env "RABBITMQ_USER").isNone ∨ (env "RABBITMQ_PASS").isNone →
      rabbitMQBaseInit env kw
        = .error (.runtimeError
            "Environment variables RABBITMQ_USER and RABBITMQ_PASS must be set")) ∧
    ((env "RABBITMQ_USER").isSome ∧ (env "RABBITMQ_PASS").isSome →
      isOkE (rabbitMQBaseInit env kw) = true) := by
  constructor
  · intro h
    have hb : ((env "RABBITMQ_USER").isNone || (env "RABBITMQ_PASS").isNone) = true := by
      rcases h with h | h <;> simp [h]
    simp [rabbitMQBaseInit, hb]
  · intro h
    have h1 : (env "RABBITMQ_USER").isNone = false := by
      simp [Option.isNone_eq_false_iff, Option.isSome_iff_exists] at h ⊢
      exact h.1
    have h2 : (env "RABBITMQ_PASS").isNone = false := by
      simp [Option.isNone_eq_false_iff, Option.isSome_iff_exists] at h ⊢
      exact h.2
    simp [rabbitMQBaseInit, h1, h2, isOkE]

theorem C4_rabbitmq_env_fail_fast_witness :
    rabbitMQBaseInit (fun _ => none) ⟨none, none, none, none⟩
      = .error (.runtimeError
          "Environment variables RABBITMQ_USER and RABBITMQ_PASS must be set") ∧
    isOkE (rabbitMQBaseInit envRabbitOnly ⟨none, none, none, none⟩) = true :=
  ⟨(C4_rabbitmq_env_fail_fast (fun _ => none) ⟨none, none, none, none⟩).1
      (Or.inl rfl),
   (C4_rabbitmq_env_fail_fast envRabbitOnly ⟨none, none, none, none⟩).2
      ⟨rfl, rfl⟩⟩

/-! ### RabbitmqPublisher (`rabbitmq_wrapper/publisher.py`)

On construction the publisher opens a channel and declares its exchange
(`direct`, `durable=True`, `auto_delete=False`).  `send_message(body,
mandatory=False)` publishes `json.dumps(body)` with
`BasicProperties(delivery_mode=2)` (persistent) and re-raises pika's
`UnroutableError`/`NackError` as `RuntimeError`.  The broker's behaviour for
one publish is abstracted as a `PublishOutcome`; pika raises
`UnroutableError` only for a mandatory publish the broker cannot route, and
`NackError` on a negative broker acknowledgement. -/

/-- The publisher's instance fields (`__exchange`, `__routing_key`). -/
structure PubState where
  exchange : String
  routing_key : String
deriving DecidableEq

/-- An AMQP channel action performed by the publisher. -/
inductive ChanEvent where
  | exchDecl (exchange ex_type : String) (durable auto_delete : Bool)
  | publish (exchange routing_key body : String) (delivery_mode : Nat)
      (mandatory : Bool)
deriving DecidableEq

/-- Escape a string for a JSON string literal (quote and backslash). -/
def jsonEscape (s : String) : String :=
  String.join (s.toList.map (fun c =>
    if c = '\\' then "\\\\"
    else if c = '"' then "\\\""
    else String.singleton c))

/-- `json.dumps` on a dict with string keys and values. -/
def jsonDumps (d : List (String × String)) : String :=
  "\x7b" ++ String.intercalate ", "
    (d.map (fun kv =>
      "\"" ++ jsonEscape kv.1 ++ "\": \"" ++ jsonEscape kv.2 ++ "\"")) ++ "\x7d"

/-- `RabbitmqPublisher.__declare_exchange(channel, exchange_type="direct",
durable=True, auto_delete=False)`: declares the instance's exchange on the
channel. -/
def declare_exchange (p : PubState) (ex_type : String)
    (durable auto_delete : Bool) : ChanEvent :=
  .exchDecl p.exchange ex_type durable auto_delete

/-- `RabbitmqPublisher.__create_channel()`: opens a channel and declares the
exchange with the default parameters (`direct`, durable, not
auto-delete). -/
def create_channel (p : PubState) : List ChanEvent :=
  [declare_exchange p "direct" true false]

/-- The broker's disposition of a single publish. -/
inductive PublishOutcome where
  | routed
  | unroutable
  | nacked
deriving DecidableEq

/-- Model of pika's `basic_publish`: raises `UnroutableError` when a
mandatory message cannot be routed (a non-mandatory unroutable publish is
silently dropped by the broker), `NackError` on a negative
acknowledgement, and otherwise performs the publish with the given
properties. -/
def basic_publish (p : PubState) (body : List (String × String))
    (mandatory : Bool) (oc : PublishOutcome) : Except PyErr ChanEvent :=
  match oc with
  | .routed => .ok (.publish p.exchange p.routing_key (jsonDumps body) 2 mandatory)
  | .unroutable =>
    if mandatory then .error (.unroutableError "message could not be routed")
    else .ok (.publish p.exchange p.routing_key (jsonDumps body) 2 mandatory)
  | .nacked => .error (.nackError "message was nacked by the broker")

/-- `RabbitmqPublisher.send_message(body, mandatory=False)`: calls
`basic_publish(exchange, routing_key, json.dumps(body),
properties=BasicProperties(delivery_mode=2), mandatory=mandatory)` and
re-raises `UnroutableError` and `NackError` as `RuntimeError`. -/
def send_message (p : PubState) (body : List (String × String))
    (mandatory : Bool) (oc : PublishOutcome) : Except PyErr ChanEvent :=
  match basic_publish p body mandatory oc with
  | .ok ev => .ok ev
  | .error (.unroutableError m) =>
    .error (.runtimeError ("Message could not be routed: " ++ m))
  | .error (.nackError m) =>
    .error (.runtimeError ("Message was not acknowledged: " ++ m))
  | .error e => .error e

/-- Whether a result is pika's `UnroutableError`. -/
def isUnroutableE {α : Type} : Except PyErr α → Bool
  | .error (.unroutableError _) => true
  | _ => false

/-- Whether a result is pika's `NackError` (the spec's
`NotAcknowledgedError`). -/
def isNackE {α : Type} : Except PyErr α → Bool
  | .error (.nackError _) => true
  | _ => false

/-- Claim C2 counterexample: a mandatory publish the broker cannot route
does fail, but with `RuntimeError` — the pika `UnroutableError` is caught
and does not propagate; likewise a negative acknowledgement surfaces as
`RuntimeError`, not as a `NackError`/`NotAcknowledgedError`. -/
theorem C2_error_type_cex :
    send_message ⟨"ex", "rk"⟩ [("k", "v")] true .unroutable
      = .error (.runtimeError
          "Message could not be routed: message could not be routed") ∧
    isUnroutableE (send_message ⟨"ex", "rk"⟩ [("k", "v")] true .unroutable)
      = false ∧
    send_message ⟨"ex", "rk"⟩ [("k", "v")] true .nacked
      = .error (.runtimeError
          "Message was not acknowledged: message was nacked by the broker") ∧
    isNackE (send_message ⟨"ex", "rk"⟩ [("k", "v")] true .nacked) = false :=
  ⟨rfl, rfl, rfl, rfl⟩

/-- Claim C2 (amended): a mandatory publish the broker cannot route fails
with a `RuntimeError` wrapping pika's `UnroutableError`; a negative broker
acknowledgement fails with a `RuntimeError` wrapping pika's `NackError`;
the same unroutable publish with `mandatory=false` succeeds without
error. -/
theorem C2_send_message_errors (p : PubState) (body : List (String × String))
    (mand : Bool) :
    send_message p body true .unroutable
      = .error (.runtimeError
          "Message could not be routed: message could not be routed") ∧
    isOkE (send_message p body false .unroutable) = true ∧
    send_message p body mand .nacked
      = .error (.runtimeError
          "Message was not acknowledged: message was nacked by the broker") := by
  refine ⟨rfl, rfl, ?_⟩
  cases mand <;> rfl

/-- One `send_message` call: its dict body, the mandatory flag, and the
broker's disposition of the publish. -/
structure SendCall where
  body : List (String × String)
  mandatory : Bool
  outcome : PublishOutcome
deriving DecidableEq

/-- The channel actions performed over a publisher's lifetime: channel
creation (which declares the exchange) followed by the publishes of the
send_message calls that did not raise. -/
def publisherTrace (p : PubState) (calls : List SendCall) : List ChanEvent :=
  create_channel p ++
    calls.filterMap (fun c => (send_message p c.body c.mandatory c.outcome).toOption)

/-- The broker's exchange table: exchange name mapped to its declared
(type, durable, auto_delete) parameters. -/
def ExchangeTable := List (String × (String × Bool × Bool))

/-- AMQP `exchange.declare`: creates the exchange when absent; re-declaring
with identical parameters is a no-op; differing parameters raise a channel
error. -/
def applyExchangeDeclare (B : ExchangeTable) (name ty : String)
    (durable auto_delete : Bool) : Except PyErr ExchangeTable :=
  match alookup name B with
  | none => .ok ((name, (ty, durable, auto_delete)) :: B)
  | some props =>
    if props = (ty, durable, auto_delete) then .ok B
    else .error (.channelError
      ("PRECONDITION_FAILED - inequivalent arg for exchange '" ++ name ++ "'"))

/-- Claim C8: the first action on a publisher's channel declares its target
exchange durable (`direct`, `durable=True`, `auto_delete=False`), that
declaration is idempotent on the broker, and every publish that follows
carries the JSON-serialized body and `delivery_mode = 2` (persistent). -/
theorem C8_publish_persistent_after_durable_declare (p : PubState)
    (calls : List SendCall) :
    (∃ rest, publisherTrace p calls
        = .exchDecl p.exchange "direct" true false :: rest ∧
      ∀ ev ∈ rest, ∃ c ∈ calls,
        ev = .publish p.exchange p.routing_key (jsonDumps c.body) 2 c.mandatory) ∧
    (∀ (B B' : ExchangeTable) (n t : String) (d a : Bool),
      applyExchangeDeclare B n t d a = .ok B' →
      applyExchangeDeclare B' n t d a = .ok B') := by
  constructor
  · refine ⟨calls.filterMap
        (fun c => (send_message p c.body c.mandatory c.outcome).toOption),
      by simp [publisherTrace, create_channel, declare_exchange], ?_⟩
    intro ev hev
    rw [List.mem_filterMap] at hev
    obtain ⟨c, hc, hfc⟩ := hev
    refine ⟨c, hc, ?_⟩
    cases hoc : c.outcome with
    | routed =>
      rw [hoc] at hfc
      simp [send_message, basic_publish, Except.toOption] at hfc
      exact hfc.symm
    | unroutable =>
      rw [hoc] at hfc
      cases hm : c.mandatory with
      | true =>
        rw [hm] at hfc
        simp [send_message, basic_publish, Except.toOption] at hfc
      | false =>
        rw [hm] at hfc
        simp [send_message, basic_publish, Except.toOption] at hfc
        exact hfc.symm
    | nacked =>
      rw [hoc] at hfc
      simp [send_message, basic_publish, Except.toOption] at hfc
  · intro B B' n t d a h
    unfold applyExchangeDeclare at h ⊢
    cases hl : alookup n B with
    | none =>
      rw [hl] at h
      injection h with h
      subst h
      simp [alookup]
    | some props =>
      rw [hl] at h
      by_cases hp : props = (t, d, a)
      · simp [hp] at h
        subst h
        rw [hl]
        simp [hp]
      · simp [hp] at h

theorem C8_publish_persistent_after_durable_declare_witness :
    publisherTrace ⟨"ex", "rk"⟩ [⟨[("a", "b")], false, .routed⟩]
      = [.exchDecl "ex" "direct" true false,
         .publish "ex" "rk" (jsonDumps [("a", "b")]) 2 false] ∧
    applyExchangeDeclare [("ex", ("direct", true, false))] "ex" "direct"
      true false = .ok [("ex", ("direct", true, false))] :=
  ⟨rfl,
   (C8_publish_persistent_after_durable_declare ⟨"ex", "rk"⟩ []).2
     [] [("ex", ("direct", true, false))] "ex" "direct" true false rfl⟩

/-! ### RabbitmqConsumer (`rabbitmq_wrapper/consumer.py`) -/

/-- The consumption setup installed by
`RabbitmqConsumer.__create_channel`: the queue declaration, the prefetch
window, and the acknowledgement mode passed to `basic_consume`. -/
structure ConsumeSetup where
  queue : String
  durable : Bool
  prefetch_count : Nat
  auto_ack : Bool
deriving DecidableEq

/-- `RabbitmqConsumer.__create_channel(connection)`: declares the queue
durable, sets `basic_qos(prefetch_count=1)`, and registers the callback with
`basic_consume(queue=..., auto_ack=True, on_message_callback=...)`. -/
def consumer_create_channel (queue : String) : ConsumeSetup :=
  ⟨queue, true, 1, true⟩

/-- Outcome of invoking the registered message callback. -/
inductive HandlerResult where
  | ok
  | raises
deriving DecidableEq

/-- The broker-side state of the consumed queue: messages still pending
delivery and messages routed to a dead-letter destination. -/
structure QueueState where
  pending : List String
  deadLetters : List String
deriving DecidableEq

/-- AMQP delivery of the next pending message under the given consumption
setup (modelled from the `basic.consume` contract the code relies on): with
`auto_ack` the broker treats the message as acknowledged at delivery, so it
is removed from the queue whatever the callback does; without `auto_ack` an
unacknowledged message returns to the queue when the callback fails. -/
def deliverOne (setup : ConsumeSetup) (handler : String → HandlerResult)
    (q : QueueState) : QueueState :=
  match q.pending with
  | [] => q
  | m :: rest =>
    if setup.auto_ack then ⟨rest, q.deadLetters⟩
    else
      match handler m with
      | .ok => ⟨rest, q.deadLetters⟩
      | .raises => ⟨rest ++ [m], q.deadLetters⟩

/-- A handler that raises on every delivery. -/
def alwaysFailingHandler : String → HandlerResult := fun _ => .raises

/-- Claim C1 counterexample: the consumer subscribes with `auto_ack=True`,
so a message whose handler raises is removed from the primary queue at its
first delivery — it is not requeued, not retried up to a bound, and not
dead-lettered, contradicting the claimed acknowledge-after-success
policy. -/
theorem C1_auto_ack_cex :
    (consumer_create_channel "q").auto_ack = true ∧
    alwaysFailingHandler "m" = .raises ∧
    deliverOne (consumer_create_channel "q") alwaysFailingHandler
      ⟨["m"], []⟩ = ⟨[], []⟩ :=
  ⟨rfl, rfl, rfl⟩

/-- Claim C1 (amended): the consumer's channel is created with
`auto_ack=True`, so every delivered message is acknowledged at delivery and
removed from the primary queue regardless of the handler's outcome; a
failing handler causes no rejection, no requeue and no dead-lettering. -/
theorem C1_auto_ack_removes_on_delivery (queue : String)
    (handler : String → HandlerResult) (m : String) (rest dl : List String) :
    (consumer_create_channel queue).auto_ack = true ∧
    deliverOne (consumer_create_channel queue) handler ⟨m :: rest, dl⟩
      = ⟨rest, dl⟩ :=
  ⟨rfl, rfl⟩

end Bindl
